import Mathlib

/-!
Verification development for the mqtt2loxone bridge (src/index.js, final
revision; an earlier revision lives in src/unnamed/part_000).

The JavaScript source is shallowly embedded below.  JavaScript strings are
Lean strings operated on as character lists (all string primitives below are
structurally recursive so that concrete instances reduce in the kernel).
JavaScript numbers are modelled as exact rationals extended with signed
infinity; NaN is modelled as the absence of a number (Option.none).  Double
rounding is outside the model: every numeric literal exercised by the
theorems below (0, 1, 5, 21, small decimals) is exactly representable, and
the model is exact on all terminating decimals.
-/

namespace Mqtt2Loxone

/-! ## Exact fractions (JavaScript number payloads) -/

/-- Fraction in lowest terms, denominator positive.  All constructors below
normalise, so equality of constructed values is plain structural equality. -/
structure Frac where
  num : Int
  den : Nat
deriving DecidableEq, Repr

/-- Fuel-based gcd so that the kernel evaluates it by iota reduction. -/
def gcdFuel : Nat → Nat → Nat → Nat
  | 0, _, b => b
  | _ + 1, 0, b => b
  | fuel + 1, a + 1, b => gcdFuel fuel (b % (a + 1)) (a + 1)

/-- Normalising constructor for fractions. -/
def mkFrac (n : Int) (d : Nat) : Frac :=
  if d = 0 then ⟨0, 1⟩
  else
    let g := gcdFuel (n.natAbs + d + 1) n.natAbs d
    if g = 0 then ⟨n, d⟩
    else ⟨n / (g : Int), d / g⟩

def Frac.neg (q : Frac) : Frac := ⟨-q.num, q.den⟩

/-- Scale a natural mantissa by a signed power of ten: m times 10 ^ t. -/
def fracScale (m : Nat) (t : Int) : Frac :=
  if 0 ≤ t then ⟨(m : Int) * ((10 ^ t.toNat : Nat) : Int), 1⟩
  else mkFrac (m : Int) (10 ^ (-t).toNat)

/-- JavaScript number that is not NaN: a finite exact value or an infinity
(the flag is true for negative infinity). -/
inductive JSNum where
  | finite : Frac → JSNum
  | inf : Bool → JSNum
deriving DecidableEq, Repr

/-! ## Character helpers -/

/-- White space recognised by the JavaScript trim and ToNumber conversions
(ASCII white space, NBSP, BOM, and the two line separators; further Unicode
space characters are outside the model). -/
def jsWhitespace (c : Char) : Bool :=
  let n := c.toNat
  n == 32 || (9 ≤ n && n ≤ 13) || n == 0xa0 || n == 0xfeff || n == 0x2028 || n == 0x2029

def trimWsChars (cs : List Char) : List Char :=
  ((cs.dropWhile jsWhitespace).reverse.dropWhile jsWhitespace).reverse

/-- JavaScript String.prototype.trim. -/
def jsTrim (s : String) : String := String.mk (trimWsChars s.toList)

def decDigitVal (c : Char) : Option Nat :=
  let n := c.toNat
  if 48 ≤ n && n ≤ 57 then some (n - 48) else none

def hexDigitVal (c : Char) : Option Nat :=
  let n := c.toNat
  if 48 ≤ n && n ≤ 57 then some (n - 48)
  else if 97 ≤ n && n ≤ 102 then some (n - 87)
  else if 65 ≤ n && n ≤ 70 then some (n - 55)
  else none

def octDigitVal (c : Char) : Option Nat :=
  let n := c.toNat
  if 48 ≤ n && n ≤ 55 then some (n - 48) else none

def binDigitVal (c : Char) : Option Nat :=
  if c == '0' then some 0 else if c == '1' then some 1 else none

def digitsValAux (base : Nat) (f : Char → Option Nat) : Nat → List Char → Option Nat
  | acc, [] => some acc
  | acc, c :: t =>
    match f c with
    | some d => digitsValAux base f (acc * base + d) t
    | none => none

/-- Value of a non-empty all-valid digit string in the given base; none when
empty or when any character is not a digit of the base. -/
def digitsVal (base : Nat) (f : Char → Option Nat) (cs : List Char) : Option Nat :=
  match cs with
  | [] => none
  | _ => digitsValAux base f 0 cs

/-- Value of a decimal digit list (caller guarantees all are digits). -/
def natOfDigits (cs : List Char) : Nat :=
  cs.foldl (fun a c => 10 * a + (c.toNat - 48)) 0

/-! ## JavaScript numeric conversions -/

/-- Optional exponent part of a decimal literal: empty means exponent 0; an
e or E must be followed by optionally signed digits. -/
def parseExpPart : List Char → Option Int
  | [] => some 0
  | 'e' :: rest => parseSignedDigits rest
  | 'E' :: rest => parseSignedDigits rest
  | _ => none
where
  parseSignedDigits : List Char → Option Int
    | '+' :: rest => (digitsVal 10 decDigitVal rest).map Int.ofNat
    | '-' :: rest => (digitsVal 10 decDigitVal rest).map (fun n => -(n : Int))
    | rest => (digitsVal 10 decDigitVal rest).map Int.ofNat

/-- Unsigned decimal literal body: digits, optional point with digits,
optional exponent; the whole input must be consumed. -/
def parseDecimalBody (cs : List Char) : Option Frac :=
  let intDs := cs.takeWhile Char.isDigit
  let rest := cs.dropWhile Char.isDigit
  match rest with
  | '.' :: rest2 =>
    let fracDs := rest2.takeWhile Char.isDigit
    let rest3 := rest2.dropWhile Char.isDigit
    if intDs.isEmpty && fracDs.isEmpty then none
    else
      match parseExpPart rest3 with
      | some e => some (fracScale (natOfDigits (intDs ++ fracDs)) (e - fracDs.length))
      | none => none
  | _ =>
    if intDs.isEmpty then none
    else
      match parseExpPart rest with
      | some e => some (fracScale (natOfDigits intDs) e)
      | none => none

/-- Signed decimal literal or Infinity. -/
def parseSignedNumeric (cs : List Char) : Option JSNum :=
  let signBody : Bool × List Char :=
    match cs with
    | '+' :: t => (false, t)
    | '-' :: t => (true, t)
    | t => (false, t)
  let neg := signBody.1
  let body := signBody.2
  if body = ['I', 'n', 'f', 'i', 'n', 'i', 't', 'y'] then some (.inf neg)
  else
    match parseDecimalBody body with
    | some q => some (.finite (if neg then q.neg else q))
    | none => none

/-- JavaScript ToNumber on strings (the Number function and the implicit
coercion performed by isNaN): trim, empty means 0, 0x/0o/0b radix literals
without sign, otherwise a signed decimal literal or Infinity; none is NaN. -/
def jsStringToNumber (s : String) : Option JSNum :=
  let cs := trimWsChars s.toList
  match cs with
  | [] => some (.finite ⟨0, 1⟩)
  | '0' :: c :: rest =>
    if c == 'x' || c == 'X' then
      (digitsVal 16 hexDigitVal rest).map (fun n => .finite ⟨(n : Int), 1⟩)
    else if c == 'o' || c == 'O' then
      (digitsVal 8 octDigitVal rest).map (fun n => .finite ⟨(n : Int), 1⟩)
    else if c == 'b' || c == 'B' then
      (digitsVal 2 binDigitVal rest).map (fun n => .finite ⟨(n : Int), 1⟩)
    else parseSignedNumeric cs
  | _ => parseSignedNumeric cs

/-- JavaScript parseInt with no radix argument: skip leading white space,
optional sign, 0x means hexadecimal, otherwise the longest leading run of
decimal digits; none is NaN. -/
def jsParseInt (s : String) : Option Int :=
  let cs := s.toList.dropWhile jsWhitespace
  let signBody : Int × List Char :=
    match cs with
    | '+' :: t => (1, t)
    | '-' :: t => (-1, t)
    | t => (1, t)
  let sign := signBody.1
  let body := signBody.2
  match body with
  | '0' :: c :: rest =>
    if c == 'x' || c == 'X' then
      let ds := rest.takeWhile (fun ch => (hexDigitVal ch).isSome)
      if ds.isEmpty then none
      else some (sign * ((ds.foldl (fun a ch => a * 16 + ((hexDigitVal ch).getD 0)) 0 : Nat) : Int))
    else
      some (sign * (natOfDigits (body.takeWhile Char.isDigit) : Int))
  | _ =>
    let ds := body.takeWhile Char.isDigit
    if ds.isEmpty then none
    else some (sign * (natOfDigits ds : Int))

/-- Count and remove factors p from n (fuel keeps the recursion structural). -/
def stripFactor (p : Nat) : Nat → Nat → Nat × Nat
  | 0, n => (0, n)
  | fuel + 1, n =>
    if 1 < p && 0 < n && n % p = 0 then
      let r := stripFactor p fuel (n / p)
      (r.1 + 1, r.2)
    else (0, n)

/-- Decimal rendering of a fraction in lowest terms, matching the JavaScript
Number toString output on every terminating decimal with magnitude below
10 ^ 21 and at least 10 ^ (-6) (outside that range JavaScript switches to
exponent notation, and non-terminating decimals cannot be produced by the
numeric conversions above; both are outside the model). -/
def decimalOfFrac (q : Frac) : String :=
  let sign := if q.num < 0 then "-" else ""
  let s2 := stripFactor 2 q.den q.den
  let s5 := stripFactor 5 s2.2 s2.2
  if s5.2 ≠ 1 then sign ++ Nat.repr q.num.natAbs ++ "/" ++ Nat.repr q.den
  else
    let k := max s2.1 s5.1
    let n := q.num.natAbs * 10 ^ k / q.den
    if k = 0 then sign ++ Nat.repr n
    else
      let ds := (Nat.repr n).toList
      let ds := if ds.length ≤ k then List.replicate (k + 1 - ds.length) '0' ++ ds else ds
      sign ++ String.mk (ds.take (ds.length - k)) ++ "." ++ String.mk (ds.drop (ds.length - k))

/-- JavaScript number-to-string conversion. -/
def jsNumToString : JSNum → String
  | .finite q => decimalOfFrac q
  | .inf neg => if neg then "-Infinity" else "Infinity"

/-! ## JavaScript values

Values that can flow through the two message handlers.  JSON arrays are not
modelled: no subscription payload exercised by the specification contains an
array, and the claims under verification never mention them. -/

inductive JSValue where
  | str : String → JSValue
  | num : JSNum → JSValue
  | bool : Bool → JSValue
  | null : JSValue
  | undefined : JSValue
  | obj : List (String × JSValue) → JSValue

/-- JavaScript typeof operator on the modelled values. -/
def JSValue.typeof : JSValue → String
  | .str _ => "string"
  | .num _ => "number"
  | .bool _ => "boolean"
  | .null => "object"
  | .undefined => "undefined"
  | .obj _ => "object"

/-- JavaScript string conversion, as performed by template literals and by
the String function. -/
def jsToString : JSValue → String
  | .str s => s
  | .num n => jsNumToString n
  | .bool b => if b then "true" else "false"
  | .null => "null"
  | .undefined => "undefined"
  | .obj _ => "[object Object]"

/-- Property read on an object: parsed JSON objects have unique keys, so the
first binding is the binding. An absent key reads as undefined. -/
def objGet (kvs : List (String × JSValue)) (k : String) : JSValue :=
  match kvs.find? (fun kv => kv.1 == k) with
  | some kv => kv.2
  | none => .undefined

/-- The JavaScript in operator on an object. -/
def hasKey (kvs : List (String × JSValue)) (k : String) : Bool :=
  (kvs.find? (fun kv => kv.1 == k)).isSome

/-- Loose equality against null (the value != null test): true exactly for
null and undefined. -/
def jsLooseNull : JSValue → Bool
  | .null => true
  | .undefined => true
  | _ => false

/-- JavaScript toLowerCase restricted to ASCII (the datagrams the bridge
produces are ASCII). -/
def jsLower (s : String) : String := String.mk (s.toList.map Char.toLower)

/-- Split on a one-character separator, as String.prototype.split does for
the separators ; and = used by the source: splitting the empty string gives
one empty field. -/
def splitOnChar (sep : Char) : List Char → List (List Char)
  | [] => [[]]
  | c :: rest =>
    let r := splitOnChar sep rest
    if c == sep then [] :: r
    else
      match r with
      | [] => [[c]]
      | h :: t => (c :: h) :: t

def jsSplit (s : String) (sep : Char) : List String :=
  (splitOnChar sep s.toList).map String.mk

/-- Substring test: String.prototype.includes, hay.includes(needle). -/
def jsIncludes (hay needle : String) : Bool :=
  go hay.toList needle.toList
where
  go : List Char → List Char → Bool
    | [], needle => needle.isEmpty
    | h :: t, needle => needle.isPrefixOf (h :: t) || go t needle

/-! ## JSON serialisation (the shapes produced by the UDP server handler) -/

/-- JSON string escaping as performed by JSON.stringify (lone surrogates are
not representable in a Lean Char and are outside the model). -/
def jsonEscapeChar (c : Char) : List Char :=
  match c.toNat with
  | 34 => ['\\', '"']
  | 92 => ['\\', '\\']
  | 8 => ['\\', 'b']
  | 12 => ['\\', 'f']
  | 10 => ['\\', 'n']
  | 13 => ['\\', 'r']
  | 9 => ['\\', 't']
  | n => if n < 32 then ['\\', 'u', '0', '0', Nat.digitChar (n / 16), Nat.digitChar (n % 16)] else [c]

def jsonQuote (s : String) : String :=
  String.mk ('"' :: s.toList.foldr (fun c acc => jsonEscapeChar c ++ acc) ['"'])

/-- JSON.stringify on the values the UDP server handler feeds it: the output
of the value coercion, which is always a string or a number (stringify maps
the non-finite numbers to null).  The remaining constructors cannot reach
this function from the handler. -/
def jsonStringifyVal : JSValue → String
  | .str s => jsonQuote s
  | .num (.finite q) => decimalOfFrac q
  | .num (.inf _) => "null"
  | .bool b => if b then "true" else "false"
  | .null => "null"
  | .undefined => "null"
  | .obj _ => "null"

/-! ## Configuration (cfg.loxone.subscriptions) -/

/-- One entry of a subscription fields list: field.name and field.type. -/
structure FieldSpec where
  name : String
  type : String

/-- One subscription rule from the configuration.  identifier and fields are
optional JSON properties; none models an absent property (JavaScript reads
it as undefined). -/
structure Subscription where
  topic : String
  identifier : Option String
  fields : Option (List FieldSpec)

/-- Stringification of the identifier property as a template literal sees
it: an absent property prints as undefined. -/
def identToString : Option String → String
  | some i => i
  | none => "undefined"

/-- Subscription lookup as written in the message handler (src/index.js line
74): cfg.loxone.subscriptions.find(item => item.topic.includes(topic)). -/
def routeSubscriptionLookup (subs : List Subscription) (topic : String) : Option Subscription :=
  subs.find? (fun item => jsIncludes item.topic topic)

/-- Subscription lookup as written in udpMessage (src/index.js line 224),
textually identical to the one in the message handler. -/
def udpSubscriptionLookup (subs : List Subscription) (topic : String) : Option Subscription :=
  subs.find? (fun item => jsIncludes item.topic topic)

/-- Subscription lookup as written in apiMessage (src/index.js line 251),
textually identical to the other two. -/
def apiSubscriptionLookup (subs : List Subscription) (topic : String) : Option Subscription :=
  subs.find? (fun item => jsIncludes item.topic topic)

/-! ## UDP client (function udpMessage, src/index.js lines 216-243) -/

/-- Datagram text transmitted by udpMessage(topic, message).  The source
splits the message on =, takes parts zero and one (part one is undefined
when the message has no =), optionally applies the identifier of the first
matching subscription joined with an underscore (the guard is identifier
strictly unequal to the empty string, which an absent identifier passes),
coerces boolean-ish value tokens to 1 or 0 (the strict comparison of the
undefined value against null is false, so an absent value is not coerced and
prints as undefined), and lower-cases the composed field=value string. -/
def udpMessage (subs : List Subscription) (topic message : String) : String :=
  let parts := jsSplit message '='
  let param := parts.headD ""
  let value : Option String := parts[1]?
  let param2 :=
    match udpSubscriptionLookup subs topic with
    | some s => if s.identifier = some "" then param else identToString s.identifier ++ "_" ++ param
    | none => param
  let valueStr :=
    match value with
    | some v =>
      if v == "true" || v == "yes" then "1"
      else if v == "false" || v == "no" || v == "null" then "0"
      else v
    | none => "undefined"
  jsLower (param2 ++ "=" ++ valueStr)

/-! ## Loxone API client (function apiMessage, src/index.js lines 249-262) -/

/-- Field name as it appears in the request URL issued by
apiMessage(topic, name, message): the identifier of the first matching
subscription is joined with space-hyphen-space under the same guard as in
udpMessage; without a prefix the name argument is stringified as the URL
template interpolates it.  The URL scheme, credentials, host and port come
from the configuration and carry no logic, so the model stops at the
resolved field name. -/
def apiFieldName (subs : List Subscription) (topic : String) (name : JSValue) : String :=
  match apiSubscriptionLookup subs topic with
  | some s =>
    if s.identifier = some "" then jsToString name
    else identToString s.identifier ++ " - " ++ jsToString name
  | none => jsToString name

/-! ## MQTT message handler (src/index.js lines 54-101) -/

/-- One call the router makes into an emitter, with the arguments the source
passes: udpMessage(topic, message) or apiMessage(topic, name, message). -/
inductive Call where
  | udpCall : String → String → Call
  | apiCall : String → JSValue → String → Call

/-- Exceptions the handler body can raise: JSON.parse throwing on malformed
input, and the TypeError raised by evaluating the in operator on a
primitive. -/
inductive HandlerErr where
  | parseError : HandlerErr
  | typeError : HandlerErr
deriving DecidableEq

/-- Outcome of one run of the message handler: the emitter calls performed,
and the exception escaping the handler if one does (the source has no
try/catch around the handler body). -/
structure RouteResult where
  calls : List Call
  error : Option HandlerErr

/-- Emitter calls of the key-by-key loop over Object.entries(payload): string
values go to apiMessage, null values are skipped by the loose null test, and
every other value goes to udpMessage as key=value.  Integer-like keys would
be reordered by Object.entries; the modelled payloads have none. -/
def entriesCalls (topic : String) (kvs : List (String × JSValue)) : List Call :=
  kvs.filterMap (fun kv =>
    if JSValue.typeof kv.2 = "string" then some (Call.apiCall topic (.str kv.1) (jsToString kv.2))
    else if jsLooseNull kv.2 then none
    else some (Call.udpCall topic (kv.1 ++ "=" ++ jsToString kv.2)))

/-- The mqttClient message handler.  Its input is the result of
JSON.parse(payload.toString()); JSON.parse is a platform builtin, so the
model takes its outcome (error for malformed input) as the argument.  The
handler first calls udpMessage when the parsed payload is a string, then
evaluates the in operator on the payload, which throws a TypeError on every
non-object; objects with a val key are single-field updates, other objects
go through the subscription fields list when one is configured and through
Object.entries otherwise. -/
def mqttMessage (subs : List Subscription) (topic : String)
    (parsed : Except Unit JSValue) : RouteResult :=
  match parsed with
  | .error _ => ⟨[], some .parseError⟩
  | .ok payload =>
    let pre : List Call :=
      if JSValue.typeof payload = "string" then [Call.udpCall topic (jsToString payload)] else []
    match payload with
    | .obj kvs =>
      if hasKey kvs "val" then
        if JSValue.typeof (objGet kvs "val") = "string" then
          ⟨pre ++ [Call.apiCall topic (objGet kvs "name") (jsToString (objGet kvs "val"))], none⟩
        else
          ⟨pre ++ [Call.udpCall topic
            (jsToString (objGet kvs "name") ++ "=" ++ jsToString (objGet kvs "val"))], none⟩
      else
        match routeSubscriptionLookup subs topic with
        | some s =>
          match s.fields with
          | some fs =>
            ⟨pre ++ fs.map (fun f =>
              if f.type = "string" then
                Call.apiCall topic (.str f.name) (jsToString (objGet kvs f.name))
              else
                Call.udpCall topic (f.name ++ "=" ++ jsToString (objGet kvs f.name))), none⟩
          | none => ⟨pre ++ entriesCalls topic kvs, none⟩
        | none => ⟨pre ++ entriesCalls topic kvs, none⟩
    | _ => ⟨pre, some .typeError⟩

/-! ## UDP server handler (src/index.js lines 118-206) -/

/-- Test for the logger line pattern, the regular expression
matching YYYY-MM-DD HH:MM:SS followed by a semicolon and any characters
other than line terminators (the handler trims the message first, so the
dollar anchor is plain end of input). -/
def isLoggerLine (s : String) : Bool :=
  let cs := s.toList
  decide (20 ≤ cs.length) &&
  ([0, 1, 2, 3, 5, 6, 8, 9, 11, 12, 14, 15, 17, 18].all (fun i => (cs.getD i ' ').isDigit)) &&
  (cs.getD 4 ' ' == '-') && (cs.getD 7 ' ' == '-') && (cs.getD 10 '-' == ' ') &&
  (cs.getD 13 ' ' == ':') && (cs.getD 16 ' ' == ':') && (cs.getD 19 ' ' == ';') &&
  ((cs.drop 20).all (fun c =>
    !(c.toNat == 10 || c.toNat == 13 || c.toNat == 0x2028 || c.toNat == 0x2029)))

/-- Fields of one inbound datagram after trimming, splitting on semicolons,
and dropping the two logger fields when the logger pattern matches
(messageParts = messageParts.splice(2) keeps the removed tail). -/
def effectiveParts (msg : String) : List String :=
  let message := jsTrim msg
  let parts := jsSplit message ';'
  if isLoggerLine message then parts.drop 2 else parts

/-- Decoded positional fields of a datagram.  The topic is messageParts[0],
which is undefined when a logger-prefixed datagram had no third field; qos
is the parseInt result, where none is NaN; name is only assigned when a
fifth field exists. -/
structure DecodedMsg where
  topic : Option String
  value : String
  qos : Option Int
  retain : Bool
  name : Option String
  mode : String

/-- Positional decoding of the UDP server handler, with the stated defaults
for missing trailing fields. -/
def decodeDatagram (msg : String) : DecodedMsg :=
  let messageParts := effectiveParts msg
  { topic := messageParts[0]?
    value := if messageParts.length > 1 then messageParts.getD 1 "" else ""
    qos := if messageParts.length > 2 then jsParseInt (messageParts.getD 2 "") else some 0
    retain := if messageParts.length > 3 then messageParts.getD 3 "" == "true" else false
    name := if messageParts.length > 4 then some (messageParts.getD 4 "") else none
    mode := if messageParts.length > 5 then messageParts.getD 5 "" else "json_raw" }

/-- Coercion of the raw value token (src/index.js lines 168-181): the empty
token stays an empty string, the literals true and false become the numbers
1 and 0, a token whose ToNumber conversion is not NaN becomes that number,
and anything else stays a string. -/
def parseValue (value : String) : JSValue :=
  if value = "" then .str ""
  else if value = "true" then .num (.finite ⟨1, 1⟩)
  else if value = "false" then .num (.finite ⟨0, 1⟩)
  else
    match jsStringToNumber value with
    | some n => .num n
    | none => .str value

/-- Payload handed to mqttClient.publish: in json mode the serialised text
of the ts/val object with the name property added when name is not null; in
every other mode (json_raw included, the switch default falls through) the
coerced value itself, unserialised. -/
inductive BusPayload where
  | raw : JSValue → BusPayload
  | text : String → BusPayload

/-- Serialised json-mode payload, with Date.now() passed in as now. -/
def jsonPayloadText (now : Nat) (v : JSValue) (name : Option String) : String :=
  "\x7b\"ts\":" ++ Nat.repr now ++ ",\"val\":" ++ jsonStringifyVal v ++
    (match name with
     | some n => ",\"name\":" ++ jsonQuote n
     | none => "") ++ "\x7d"

/-- Arguments of the mqttClient.publish call issued for one datagram. -/
structure PublishAction where
  topic : Option String
  payload : BusPayload
  qos : Option Int
  retain : Bool

/-- The udpServer message handler: decode the datagram, coerce the value,
shape the payload by mode, and publish. -/
def udpServerMessage (now : Nat) (msg : String) : PublishAction :=
  let d := decodeDatagram msg
  let parsedValue := parseValue d.value
  { topic := d.topic
    payload :=
      if d.mode = "json" then .text (jsonPayloadText now parsedValue d.name)
      else .raw parsedValue
    qos := d.qos
    retain := d.retain }

/-! ## Spec-side format statements used by the amended claims -/

/-- Field part of a UDP datagram as the corrected claim C9 states it: the
identifier of the first matching subscription joined with an underscore
whenever that identifier differs from the empty string, an absent identifier
being rendered as the text undefined. -/
def paramWithIdentifier (subs : List Subscription) (topic p : String) : String :=
  match udpSubscriptionLookup subs topic with
  | some s => if s.identifier = some "" then p else identToString s.identifier ++ "_" ++ p
  | none => p

/-- Value canonicalisation as the corrected claim C9 states it for a present
value token. -/
def canonicalUdpValue (v : String) : String :=
  if v == "true" || v == "yes" then "1"
  else if v == "false" || v == "no" || v == "null" then "0"
  else v

/-- Full datagram format as the corrected claim C9 states it: lower-cased
field=value, where the field is the first =-separated part of the message
with the identifier treatment above, and the value is the canonicalised
second part, or the text undefined when the message has no second part. -/
def udpEmissionSpec (subs : List Subscription) (topic message : String) : String :=
  jsLower (paramWithIdentifier subs topic ((jsSplit message '=').headD "") ++ "=" ++
    (match (jsSplit message '=')[1]? with
     | some v => canonicalUdpValue v
     | none => "undefined"))

/-! ## Helper lemmas -/

/-- Characterisation of List.find?: a found element satisfies the predicate
and is the first element of the list doing so. -/
theorem find?_first_match {α : Type} (p : α → Bool) (l : List α) (r : α)
    (h : l.find? p = some r) :
    p r = true ∧ ∃ l₁ l₂, l = l₁ ++ r :: l₂ ∧ ∀ x ∈ l₁, p x = false := by
  induction l with
  | nil => simp [List.find?] at h
  | cons a t ih =>
    rcases hp : p a with _ | _
    · rw [List.find?_cons_of_neg _ (by simp [hp])] at h
      obtain ⟨hr, l₁, l₂, hl, hall⟩ := ih h
      refine ⟨hr, a :: l₁, l₂, by rw [hl]; rfl, ?_⟩
      intro x hx
      cases hx with
      | head => exact hp
      | tail _ hx2 => exact hall x hx2
    · rw [List.find?_cons_of_pos _ hp] at h
      cases h
      exact ⟨hp, [], t, rfl, by intro x hx; cases hx⟩

/-! ## Claims -/

/-- C1 (corrected): the final revision of the message handler does not guard
JSON.parse, so for every inbound bus message whose payload is not parseable
the handler performs no UDP and no HTTP emission but lets the parse
exception escape instead of dropping the message quietly. -/
theorem mqtt_parse_error_behavior (subs : List Subscription) (topic : String) (e : Unit) :
    mqttMessage subs topic (.error e) = ⟨[], some .parseError⟩ := rfl

/-- C1 counterexample: on a concrete unparseable payload an exception does
escape the message handler, contrary to the claim. -/
theorem mqtt_parse_error_counterexample :
    (mqttMessage [] "sensors" (.error ())).error = some .parseError := rfl

/-- C2 (corrected): a payload parsing to a bare string produces one UDP
emitter call whose message is the payload text itself, not the topic, and
the handler then raises a TypeError evaluating the in operator on the
primitive; a payload parsing to a bare number, boolean or null produces no
emission at all and raises the same TypeError. -/
theorem mqtt_bare_value_behavior (subs : List Subscription) (topic : String) :
    (∀ s, mqttMessage subs topic (.ok (.str s)) = ⟨[Call.udpCall topic s], some .typeError⟩) ∧
    (∀ n, mqttMessage subs topic (.ok (.num n)) = ⟨[], some .typeError⟩) ∧
    (∀ b, mqttMessage subs topic (.ok (.bool b)) = ⟨[], some .typeError⟩) ∧
    mqttMessage subs topic (.ok .null) = ⟨[], some .typeError⟩ :=
  ⟨fun _ => rfl, fun _ => rfl, fun _ => rfl, rfl⟩

/-- C2 counterexample: a payload parsing to the bare number 5 produces no
UDP datagram and the handler raises, contrary to the claimed single emission
with the topic as field name and exception-free completion. -/
theorem mqtt_bare_number_counterexample :
    mqttMessage [] "x" (.ok (.num (.finite ⟨5, 1⟩))) = ⟨[], some .typeError⟩ := rfl

/-- C5 (corrected): decoding sensor/temp;true;1;true;;json yields topic
sensor/temp, value token true coerced to the number 1, qos 1 and retain
true as claimed, but the name field is the empty string rather than null,
because a fifth field is supplied, and the published json payload therefore
carries an explicit empty name property. -/
theorem json_datagram_decode :
    decodeDatagram "sensor/temp;true;1;true;;json" =
      ⟨some "sensor/temp", "true", some 1, true, some "", "json"⟩ ∧
    parseValue "true" = .num (.finite ⟨1, 1⟩) ∧
    udpServerMessage 1700000000000 "sensor/temp;true;1;true;;json" =
      ⟨some "sensor/temp", .text "\x7b\"ts\":1700000000000,\"val\":1,\"name\":\"\"\x7d",
        some 1, true⟩ :=
  ⟨rfl, rfl, rfl⟩

/-- C5 counterexample: the decoded name of the claimed datagram is the empty
string, not null. -/
theorem json_datagram_name_counterexample :
    (decodeDatagram "sensor/temp;true;1;true;;json").name = some "" := rfl

/-- C6 (corrected): the UDP server handler has no failure path, so an empty
datagram decodes with an empty topic and the stated defaults, and a publish
of the raw empty-string payload to the empty topic is attempted rather than
the claimed DecodeError with no publish. -/
theorem empty_datagram_behavior (now : Nat) :
    decodeDatagram "" = ⟨some "", "", some 0, false, none, "json_raw"⟩ ∧
    udpServerMessage now "" = ⟨some "", .raw (.str ""), some 0, false⟩ :=
  ⟨rfl, rfl⟩

/-- C6 counterexample: decoding the empty datagram succeeds and a concrete
publish action is produced for it, contrary to the claim. -/
theorem empty_datagram_counterexample :
    udpServerMessage 0 "" = ⟨some "", .raw (.str ""), some 0, false⟩ := rfl

/-- C3 (corrected): for an object payload with a val key, a string val goes
to the HTTP emitter with the name property passed through unchanged, so an
absent name is the undefined value rather than the claimed unknown default;
every non-string val, null included, goes to the UDP emitter as the
template rendering of name=val, so a null val is emitted as the token null
rather than skipped. -/
theorem mqtt_single_field_behavior (subs : List Subscription) (topic : String)
    (kvs : List (String × JSValue)) (h : hasKey kvs "val" = true) :
    (JSValue.typeof (objGet kvs "val") = "string" →
      mqttMessage subs topic (.ok (.obj kvs)) =
        ⟨[Call.apiCall topic (objGet kvs "name") (jsToString (objGet kvs "val"))], none⟩) ∧
    (JSValue.typeof (objGet kvs "val") ≠ "string" →
      mqttMessage subs topic (.ok (.obj kvs)) =
        ⟨[Call.udpCall topic
          (jsToString (objGet kvs "name") ++ "=" ++ jsToString (objGet kvs "val"))], none⟩) := by
  constructor <;> intro hv <;> simp [mqttMessage, h, hv] <;>
    · show ¬("object" : String) = "string"
      decide

/-- C3 witness: the payload with val on and no name invokes the HTTP
emitter with the undefined name, obtained from the theorem above. -/
theorem mqtt_single_field_behavior_witness :
    mqttMessage [] "x" (.ok (.obj [("val", .str "on")])) =
      ⟨[Call.apiCall "x" .undefined "on"], none⟩ := by
  have h := mqtt_single_field_behavior [] "x" [("val", .str "on")] rfl
  exact (h.1 rfl).trans rfl

/-- C3 counterexample: a null val is not skipped; the UDP emitter is invoked
with the message undefined=null, contrary to the claimed absence of any
emission. -/
theorem mqtt_null_val_counterexample :
    mqttMessage [] "x" (.ok (.obj [("val", .null)])) =
      ⟨[Call.udpCall "x" "undefined=null"], none⟩ := rfl

/-- C4 (corrected): when the matched subscription declares a fields list the
router iterates it in order and emits for every declared field, present in
the payload or not — via the HTTP emitter with the stringified value when
the declared type is string, via the UDP emitter otherwise — and null or
absent values are not skipped but rendered as the tokens null and
undefined. -/
theorem mqtt_declared_fields_behavior (subs : List Subscription) (topic : String)
    (kvs : List (String × JSValue)) (s : Subscription) (fs : List FieldSpec)
    (hval : hasKey kvs "val" = false)
    (hfind : routeSubscriptionLookup subs topic = some s)
    (hfs : s.fields = some fs) :
    mqttMessage subs topic (.ok (.obj kvs)) =
      ⟨fs.map (fun f =>
        if f.type = "string" then Call.apiCall topic (.str f.name) (jsToString (objGet kvs f.name))
        else Call.udpCall topic (f.name ++ "=" ++ jsToString (objGet kvs f.name))), none⟩ := by
  simp [mqttMessage, hval, hfind, hfs]
  show ¬("object" : String) = "string"
  decide

/-- C4 witness: a rule with a numeric field a and a string field c, applied
to a payload providing only a, emits for both declared fields. -/
theorem mqtt_declared_fields_behavior_witness :
    mqttMessage [⟨"t", none, some [⟨"a", "number"⟩, ⟨"c", "string"⟩]⟩] "t"
        (.ok (.obj [("a", .num (.finite ⟨21, 1⟩))])) =
      ⟨[Call.udpCall "t" "a=21", Call.apiCall "t" (.str "c") "undefined"], none⟩ := by
  have h := mqtt_declared_fields_behavior [⟨"t", none, some [⟨"a", "number"⟩, ⟨"c", "string"⟩]⟩]
    "t" [("a", .num (.finite ⟨21, 1⟩))] ⟨"t", none, some [⟨"a", "number"⟩, ⟨"c", "string"⟩]⟩
    [⟨"a", "number"⟩, ⟨"c", "string"⟩] rfl rfl rfl
  exact h.trans rfl

/-- C4 counterexample: a declared field absent from the payload is emitted
anyway, as a=undefined, contrary to the claimed present-fields-only
iteration. -/
theorem mqtt_absent_field_counterexample :
    mqttMessage [⟨"t", none, some [⟨"a", "number"⟩]⟩] "t" (.ok (.obj [])) =
      ⟨[Call.udpCall "t" "a=undefined"], none⟩ := rfl

/-- C7 (confirmed): a datagram supplying fewer than six semicolon fields
takes the defaults value empty, qos 0, retain false, name null and mode
json_raw for the missing positions; json_raw mode publishes the coerced
value itself unserialised, while json mode publishes the serialised
ts/val/name text. -/
theorem short_datagram_defaults (now : Nat) (s : String) :
    ((effectiveParts s).length ≤ 1 → (decodeDatagram s).value = "") ∧
    ((effectiveParts s).length ≤ 2 → (decodeDatagram s).qos = some 0) ∧
    ((effectiveParts s).length ≤ 3 → (decodeDatagram s).retain = false) ∧
    ((effectiveParts s).length ≤ 4 → (decodeDatagram s).name = none) ∧
    ((effectiveParts s).length ≤ 5 → (decodeDatagram s).mode = "json_raw") ∧
    ((decodeDatagram s).mode = "json_raw" →
      (udpServerMessage now s).payload = .raw (parseValue (decodeDatagram s).value)) ∧
    ((decodeDatagram s).mode = "json" →
      (udpServerMessage now s).payload =
        .text (jsonPayloadText now (parseValue (decodeDatagram s).value)
          (decodeDatagram s).name)) := by
  refine ⟨fun h => ?_, fun h => ?_, fun h => ?_, fun h => ?_, fun h => ?_, fun h => ?_,
    fun h => ?_⟩
  · simp only [decodeDatagram]; rw [if_neg (by omega)]
  · simp only [decodeDatagram]; rw [if_neg (by omega)]
  · simp only [decodeDatagram]; rw [if_neg (by omega)]
  · simp only [decodeDatagram]; rw [if_neg (by omega)]
  · simp only [decodeDatagram]; rw [if_neg (by omega)]
  · simp only [udpServerMessage]
    rw [if_neg (by rw [h]; decide)]
  · simp only [udpServerMessage]
    rw [if_pos h]

/-- C7 witness: the one-field datagram a takes every default and publishes
its coerced empty value raw; a six-field json datagram publishes the
serialised text. -/
theorem short_datagram_defaults_witness :
    (decodeDatagram "a").value = "" ∧ (decodeDatagram "a").qos = some 0 ∧
    (decodeDatagram "a").retain = false ∧ (decodeDatagram "a").name = none ∧
    (decodeDatagram "a").mode = "json_raw" ∧
    (udpServerMessage 0 "a").payload = .raw (.str "") ∧
    (udpServerMessage 7 "t;1;0;false;n;json").payload =
      .text "\x7b\"ts\":7,\"val\":1,\"name\":\"n\"\x7d" := by
  have h1 := short_datagram_defaults 0 "a"
  have h2 := short_datagram_defaults 7 "t;1;0;false;n;json"
  refine ⟨h1.1 (by decide), h1.2.1 (by decide), h1.2.2.1 (by decide), h1.2.2.2.1 (by decide),
    h1.2.2.2.2.1 (by decide), (h1.2.2.2.2.2.1 rfl).trans rfl, (h2.2.2.2.2.2.2 rfl).trans rfl⟩

/-- C8 (confirmed): the value coercion maps the empty token to the empty
string, the literal true to the number 1, the literal false to the number 0,
every other token whose ToNumber conversion is not NaN to that number, and
leaves every remaining token unchanged as a string. -/
theorem value_coercion_spec :
    parseValue "" = .str "" ∧
    parseValue "true" = .num (.finite ⟨1, 1⟩) ∧
    parseValue "false" = .num (.finite ⟨0, 1⟩) ∧
    ∀ v : String, v ≠ "" → v ≠ "true" → v ≠ "false" →
      (∀ n, jsStringToNumber v = some n → parseValue v = JSValue.num n) ∧
      (jsStringToNumber v = none → parseValue v = JSValue.str v) := by
  refine ⟨rfl, rfl, rfl, fun v h1 h2 h3 => ⟨fun n hn => ?_, fun hn => ?_⟩⟩ <;>
    simp [parseValue, h1, h2, h3, hn]

/-- C8 witness: the numeric token 12 parses to the number 12 and the
non-numeric token abc stays a string, obtained from the theorem above. -/
theorem value_coercion_spec_witness :
    parseValue "12" = JSValue.num (.finite ⟨12, 1⟩) ∧ parseValue "abc" = JSValue.str "abc" := by
  have h := value_coercion_spec
  exact ⟨(h.2.2.2 "12" (by decide) (by decide) (by decide)).1 _ rfl,
    (h.2.2.2 "abc" (by decide) (by decide) (by decide)).2 rfl⟩

/-- C9 (corrected): every UDP emission transmits the lower-cased field=value
string with true/yes canonicalised to 1 and false/no/null to 0 as claimed,
but an absent value is rendered as the text undefined rather than
canonicalised to 0, because the strict comparison of undefined with null
fails; and the identifier treatment applies whenever a subscription matches
and its identifier is not the empty string, so a matching rule without an
identifier produces the field prefix undefined rather than no prefix. -/
theorem udp_emission_amended (subs : List Subscription) (topic message : String) :
    udpMessage subs topic message = udpEmissionSpec subs topic message := rfl

/-- C9 counterexample: for a matching rule without an identifier and a
message without an = separator, the transmitted datagram is
undefined_x=undefined, not the x=0 the claim requires. -/
theorem udp_emission_counterexample :
    udpMessage [⟨"t", none, none⟩] "t" "x" = "undefined_x=undefined" ∧
    udpMessage [⟨"t", none, none⟩] "t" "x" ≠ "x=0" := ⟨rfl, by decide⟩

/-- C10 (confirmed): the subscription lookups written at the three call
sites — the router multi-field path, the UDP emitter and the HTTP emitter —
agree on every topic, and each returns the first configured rule whose
topic pattern contains the incoming topic as a substring (none when no rule
matches). -/
theorem subscription_resolution_consistent (subs : List Subscription) (topic : String) :
    routeSubscriptionLookup subs topic = udpSubscriptionLookup subs topic ∧
    routeSubscriptionLookup subs topic = apiSubscriptionLookup subs topic ∧
    ∀ r, routeSubscriptionLookup subs topic = some r →
      jsIncludes r.topic topic = true ∧
      ∃ l₁ l₂, subs = l₁ ++ r :: l₂ ∧ ∀ x ∈ l₁, jsIncludes x.topic topic = false := by
  refine ⟨rfl, rfl, fun r h => ?_⟩
  exact find?_first_match _ _ _ h

/-- C10 witness: on a concrete configuration the three lookups agree and the
found rule matches by substring containment, obtained from the theorem
above. -/
theorem subscription_resolution_consistent_witness :
    routeSubscriptionLookup [Subscription.mk "abc" none none] "b" =
      udpSubscriptionLookup [Subscription.mk "abc" none none] "b" ∧
    jsIncludes (Subscription.mk "abc" none none).topic "b" = true := by
  have h := subscription_resolution_consistent [Subscription.mk "abc" none none] "b"
  exact ⟨h.1, (h.2.2 _ rfl).1⟩

end Mqtt2Loxone
